import Mathlib

/-!
Verification of the `rad sync` command-line core (src/src/lib.rs).

The data model and the intent resolver are translated directly from the
Rust source.  Durations are modelled as whole seconds (`Duration::from_secs`
is the only constructor the source uses), `usize` as `Nat`, and `Vec` as
`List`.  The argument surface (the clap parser configured by the derive
attributes in the source) is modelled from the spec as an explicit
token-list parser, since clap itself is library code outside this
repository.
-/

/-- Number of seconds of `DEFAULT_SYNC_TIMEOUT` (`Duration::from_secs(9)`);
durations are modelled as their whole-second count. -/
def DEFAULT_SYNC_TIMEOUT : Nat := 9

/-- NodeId: an opaque string naming a network peer (src/src/lib.rs line 288). -/
structure NodeId where
  val : String
  deriving DecidableEq

/-- RepoId: an opaque string naming a repository (src/src/lib.rs line 277). -/
structure RepoId where
  val : String
  deriving DecidableEq

/-- The uninhabited error type `std::convert::Infallible` used by the
identifier `FromStr` implementations. -/
inductive Infallible : Type

/-- FromStr for RepoId (src/src/lib.rs lines 279-285): always `Ok`, the
string kept unchanged. -/
def RepoId.fromStr (s : String) : Except Infallible RepoId := .ok ⟨s⟩

/-- FromStr for NodeId (src/src/lib.rs lines 290-296): always `Ok`, the
string kept unchanged. -/
def NodeId.fromStr (s : String) : Except Infallible NodeId := .ok ⟨s⟩

/-- SortBy (src/src/lib.rs lines 142-151). -/
inductive SortBy
  | Nid
  | Alias
  | Status
  deriving DecidableEq

/-- The `#[default]` variant of `SortBy` is `Status`. -/
def SortBy.default : SortBy := .Status

/-- FromStr for SortBy (src/src/lib.rs lines 153-164); the clap `ValueEnum`
derivation accepts the same three kebab-case tokens. -/
def SortBy.fromStr (s : String) : Except String SortBy :=
  if s = "nid" then .ok .Nid
  else if s = "alias" then .ok .Alias
  else if s = "status" then .ok .Status
  else .error "invalid `--sort-by` field"

/-- Operation (src/src/lib.rs lines 122-132): the `status` subcommand. -/
inductive Operation
  | Status (sort_by : SortBy)
  deriving DecidableEq

/-- Directions (src/src/lib.rs lines 198-210): the two direction flags. -/
structure Directions where
  fetch : Bool
  announce : Bool
  deriving DecidableEq

/-- The derived `Default` for `Directions`: both flags false. -/
def Directions.default : Directions := ⟨false, false⟩

/-- SyncDirection (src/src/lib.rs lines 212-218). -/
inductive SyncDirection
  | Fetch
  | Announce
  | Both
  deriving DecidableEq

/-- The `#[default]` variant of `SyncDirection` is `Both`. -/
def SyncDirection.default : SyncDirection := .Both

/-- From<Directions> for SyncDirection (src/src/lib.rs lines 220-230). -/
def SyncDirection.ofDirections (value : Directions) : SyncDirection :=
  match value.fetch, value.announce with
  | true, true => .Both
  | true, false => .Fetch
  | false, true => .Announce
  | false, false => SyncDirection.default

/-- SyncSettings (src/src/lib.rs lines 233-241); `timeout` in whole seconds. -/
structure SyncSettings where
  replicas : Nat
  seeds : List NodeId
  timeout : Nat
  deriving DecidableEq

/-- Default for SyncSettings (src/src/lib.rs lines 243-251). -/
def SyncSettings.default : SyncSettings :=
  { replicas := 3, seeds := [], timeout := DEFAULT_SYNC_TIMEOUT }

/-- SyncModeArgs (src/src/lib.rs lines 188-196). -/
structure SyncModeArgs where
  directions : Directions
  inventory : Bool
  deriving DecidableEq

/-- The derived `Default` for `SyncModeArgs`. -/
def SyncModeArgs.default : SyncModeArgs := ⟨Directions.default, false⟩

/-- SyncMode (src/src/lib.rs lines 166-173). -/
inductive SyncMode
  | Repo (settings : SyncSettings) (direction : SyncDirection)
  | Inventory
  deriving DecidableEq

/-- SyncMode::new (src/src/lib.rs lines 175-186). -/
def SyncMode.new (args : SyncModeArgs) (settings : Option SyncSettings) : SyncMode :=
  if args.inventory then
    .Inventory
  else
    .Repo (settings.getD SyncSettings.default) (SyncDirection.ofDirections args.directions)

/-- SyncSettingsArgs (src/src/lib.rs lines 253-264): the raw settings flags,
with their clap defaults `3` / `[]` / `9`. -/
structure SyncSettingsArgs where
  replicas : Nat
  seeds : List NodeId
  timeout : Nat
  deriving DecidableEq

/-- The clap default values of SyncSettingsArgs (`default_value_t` on
`replicas` and `timeout`, empty `Vec` for `seeds`). -/
def SyncSettingsArgs.default : SyncSettingsArgs :=
  { replicas := 3, seeds := [], timeout := DEFAULT_SYNC_TIMEOUT }

/-- From<SyncSettingsArgs> for SyncSettings (src/src/lib.rs lines 266-274). -/
def SyncSettings.ofArgs (s : SyncSettingsArgs) : SyncSettings :=
  { replicas := s.replicas, seeds := s.seeds, timeout := s.timeout }

/-- Options (src/src/lib.rs lines 310-326): the full parsed invocation. -/
structure Options where
  rid : Option RepoId
  debug : Bool
  verbose : Bool
  sync : SyncModeArgs
  settings : SyncSettingsArgs
  op : Option Operation
  deriving DecidableEq

/-- Modelled from the spec: decimal-numeral parsing for integer-valued flags
(the argument surface's "malformed integers ... fail" rule; `usize`/`u64`
string parsing accepts digit strings only, so a minus sign is rejected). -/
def parseNat (s : String) : Except String Nat :=
  match s.data with
  | [] => .error "cannot parse integer from empty string"
  | l =>
    if l.all Char.isDigit then
      .ok (l.foldl (fun a c => a * 10 + (c.toNat - 48)) 0)
    else
      .error "invalid digit found in string"

/-- Modelled from the spec: a value token that begins with a minus sign looks
like a flag and is refused as a value by the argument surface. -/
def dashPrefixed (s : String) : Bool :=
  match s.data with
  | [] => false
  | c :: _ => c = '-'

/-- Accumulator for scanning the root invocation's flags. -/
structure RootAcc where
  fetch : Bool
  announce : Bool
  inventory : Bool
  replicas : Option Nat
  seeds : List String
  timeout : Option Nat
  rid : Option String
  debug : Bool
  verbose : Bool
  deriving DecidableEq

/-- The all-unset starting accumulator for the root invocation. -/
def RootAcc.init : RootAcc :=
  { fetch := false, announce := false, inventory := false, replicas := none,
    seeds := [], timeout := none, rid := none, debug := false, verbose := false }

/-- Modelled from the spec: the argument surface's scan of the root
invocation's flags (the clap parser configured in src/src/lib.rs is library
code outside this repository).  Boolean flags may appear at most once; a
valued flag consumes the following token as its value, and a string-valued
flag refuses a value that looks like a flag; `--seed` is repeatable and
appends in order; unknown tokens are rejected. -/
def parseRoot : List String → RootAcc → Except String RootAcc
  | [], acc => .ok acc
  | tok :: rest, acc =>
    if tok = "--fetch" then
      if acc.fetch then .error "the argument cannot be used multiple times"
      else parseRoot rest { acc with fetch := true }
    else if tok = "--announce" then
      if acc.announce then .error "the argument cannot be used multiple times"
      else parseRoot rest { acc with announce := true }
    else if tok = "--inventory" then
      if acc.inventory then .error "the argument cannot be used multiple times"
      else parseRoot rest { acc with inventory := true }
    else if tok = "--debug" then
      if acc.debug then .error "the argument cannot be used multiple times"
      else parseRoot rest { acc with debug := true }
    else if tok = "--verbose" || tok = "-v" then
      if acc.verbose then .error "the argument cannot be used multiple times"
      else parseRoot rest { acc with verbose := true }
    else if tok = "--replicas" || tok = "-r" then
      match rest with
      | [] => .error "a value is required for the argument"
      | v :: rest2 =>
        if acc.replicas.isSome then .error "the argument cannot be used multiple times"
        else if dashPrefixed v then .error "a value is required for the argument"
        else
          match parseNat v with
          | .ok n => parseRoot rest2 { acc with replicas := some n }
          | .error e => .error e
    else if tok = "--timeout" then
      match rest with
      | [] => .error "a value is required for the argument"
      | v :: rest2 =>
        if acc.timeout.isSome then .error "the argument cannot be used multiple times"
        else if dashPrefixed v then .error "a value is required for the argument"
        else
          match parseNat v with
          | .ok n => parseRoot rest2 { acc with timeout := some n }
          | .error e => .error e
    else if tok = "--seed" then
      match rest with
      | [] => .error "a value is required for the argument"
      | v :: rest2 =>
        if dashPrefixed v then .error "a value is required for the argument"
        else parseRoot rest2 { acc with seeds := acc.seeds ++ [v] }
    else if tok = "--rid" then
      match rest with
      | [] => .error "a value is required for the argument"
      | v :: rest2 =>
        if acc.rid.isSome then .error "the argument cannot be used multiple times"
        else if dashPrefixed v then .error "a value is required for the argument"
        else parseRoot rest2 { acc with rid := some v }
    else
      .error ("unexpected argument " ++ tok)

/-- Accumulator for scanning the `status` subcommand's flags. -/
structure StatusAcc where
  sortBy : Option SortBy
  rid : Option String
  debug : Bool
  verbose : Bool
  deriving DecidableEq

/-- The all-unset starting accumulator for the `status` subcommand. -/
def StatusAcc.init : StatusAcc := ⟨none, none, false, false⟩

/-- Modelled from the spec: the argument surface's scan of the `status`
subcommand's flags (`--sort-by` plus the globals `--rid`, `--debug`,
`-v`/`--verbose`); an out-of-enum `--sort-by` token and unknown flags are
rejected. -/
def parseStatus : List String → StatusAcc → Except String StatusAcc
  | [], acc => .ok acc
  | tok :: rest, acc =>
    if tok = "--sort-by" then
      match rest with
      | [] => .error "a value is required for the argument"
      | v :: rest2 =>
        if acc.sortBy.isSome then .error "the argument cannot be used multiple times"
        else if dashPrefixed v then .error "a value is required for the argument"
        else
          match SortBy.fromStr v with
          | .ok sb => parseStatus rest2 { acc with sortBy := some sb }
          | .error e => .error e
    else if tok = "--rid" then
      match rest with
      | [] => .error "a value is required for the argument"
      | v :: rest2 =>
        if acc.rid.isSome then .error "the argument cannot be used multiple times"
        else if dashPrefixed v then .error "a value is required for the argument"
        else parseStatus rest2 { acc with rid := some v }
    else if tok = "--debug" then
      if acc.debug then .error "the argument cannot be used multiple times"
      else parseStatus rest { acc with debug := true }
    else if tok = "--verbose" || tok = "-v" then
      if acc.verbose then .error "the argument cannot be used multiple times"
      else parseStatus rest { acc with verbose := true }
    else
      .error ("unexpected argument " ++ tok)

/-- Modelled from the spec: after the scan, the root invocation enforces the
declared conflict (`fetch`/`announce` conflict with `inventory`, the
`conflicts_with` group on `Directions`), then applies the per-field defaults
`3` / `[]` / `9`. -/
def RootAcc.finish (acc : RootAcc) : Except String Options :=
  if (acc.fetch || acc.announce) && acc.inventory then
    .error "the argument cannot be used with the argument --inventory"
  else
    .ok { rid := acc.rid.map RepoId.mk
        , debug := acc.debug
        , verbose := acc.verbose
        , sync := { directions := { fetch := acc.fetch, announce := acc.announce }
                  , inventory := acc.inventory }
        , settings := { replicas := acc.replicas.getD 3
                      , seeds := acc.seeds.map NodeId.mk
                      , timeout := acc.timeout.getD DEFAULT_SYNC_TIMEOUT }
        , op := none }

/-- Modelled from the spec: the `status` subcommand's result, with the
`--sort-by` default `status` applied on omission and the root-only fields at
their defaults. -/
def StatusAcc.finish (acc : StatusAcc) : Options :=
  { rid := acc.rid.map RepoId.mk
  , debug := acc.debug
  , verbose := acc.verbose
  , sync := SyncModeArgs.default
  , settings := SyncSettingsArgs.default
  , op := some (Operation.Status (acc.sortBy.getD SortBy.default)) }

/-- Modelled from the spec: the whole argument surface — a `status` first
token selects the subcommand, anything else is the root invocation. -/
def parseArgs (args : List String) : Except String Options :=
  match args with
  | "status" :: rest =>
    match parseStatus rest StatusAcc.init with
    | .ok acc => .ok acc.finish
    | .error e => .error e
  | _ =>
    match parseRoot args RootAcc.init with
    | .ok acc => acc.finish
    | .error e => .error e

/-- Canonical flag bundle re-derived from a resolved direction, as the
spec's round-trip test prescribes (modelled from the spec: the spec's
round-trip property re-derives the equivalent flag bundle from a
`SyncMode`). -/
def SyncDirection.canonical : SyncDirection → Directions
  | .Fetch => ⟨true, false⟩
  | .Announce => ⟨false, true⟩
  | .Both => ⟨false, false⟩

/-- Token list rendering a sequence of `--seed` occurrences, in order. -/
def seedTokens : List String → List String
  | [] => []
  | s :: ss => "--seed" :: s :: seedTokens ss

deriving instance DecidableEq for Except

/-! Equation lemmas for the parser, one per recognized token shape. -/

theorem parseRoot_nil (acc : RootAcc) : parseRoot [] acc = .ok acc := by
  rw [parseRoot.eq_def]

theorem parseRoot_cons_fetch (rest : List String) (acc : RootAcc) :
    parseRoot ("--fetch" :: rest) acc =
      if acc.fetch then .error "the argument cannot be used multiple times"
      else parseRoot rest { acc with fetch := true } := by
  rw [parseRoot.eq_def]; simp

theorem parseRoot_cons_announce (rest : List String) (acc : RootAcc) :
    parseRoot ("--announce" :: rest) acc =
      if acc.announce then .error "the argument cannot be used multiple times"
      else parseRoot rest { acc with announce := true } := by
  rw [parseRoot.eq_def]; simp

theorem parseRoot_cons_inventory (rest : List String) (acc : RootAcc) :
    parseRoot ("--inventory" :: rest) acc =
      if acc.inventory then .error "the argument cannot be used multiple times"
      else parseRoot rest { acc with inventory := true } := by
  rw [parseRoot.eq_def]; simp

theorem parseRoot_cons_debug (rest : List String) (acc : RootAcc) :
    parseRoot ("--debug" :: rest) acc =
      if acc.debug then .error "the argument cannot be used multiple times"
      else parseRoot rest { acc with debug := true } := by
  rw [parseRoot.eq_def]; simp

theorem parseRoot_cons_verbose (rest : List String) (acc : RootAcc) :
    parseRoot ("--verbose" :: rest) acc =
      if acc.verbose then .error "the argument cannot be used multiple times"
      else parseRoot rest { acc with verbose := true } := by
  rw [parseRoot.eq_def]; simp

theorem parseRoot_cons_vshort (rest : List String) (acc : RootAcc) :
    parseRoot ("-v" :: rest) acc =
      if acc.verbose then .error "the argument cannot be used multiple times"
      else parseRoot rest { acc with verbose := true } := by
  rw [parseRoot.eq_def]; simp

theorem parseRoot_cons_replicas (v : String) (rest : List String) (acc : RootAcc) :
    parseRoot ("--replicas" :: v :: rest) acc =
      if acc.replicas.isSome then .error "the argument cannot be used multiple times"
      else if dashPrefixed v then .error "a value is required for the argument"
      else
        match parseNat v with
        | .ok n => parseRoot rest { acc with replicas := some n }
        | .error e => .error e := by
  rw [parseRoot.eq_def]; simp

theorem parseRoot_cons_rshort (v : String) (rest : List String) (acc : RootAcc) :
    parseRoot ("-r" :: v :: rest) acc =
      if acc.replicas.isSome then .error "the argument cannot be used multiple times"
      else if dashPrefixed v then .error "a value is required for the argument"
      else
        match parseNat v with
        | .ok n => parseRoot rest { acc with replicas := some n }
        | .error e => .error e := by
  rw [parseRoot.eq_def]; simp

theorem parseRoot_cons_timeout (v : String) (rest : List String) (acc : RootAcc) :
    parseRoot ("--timeout" :: v :: rest) acc =
      if acc.timeout.isSome then .error "the argument cannot be used multiple times"
      else if dashPrefixed v then .error "a value is required for the argument"
      else
        match parseNat v with
        | .ok n => parseRoot rest { acc with timeout := some n }
        | .error e => .error e := by
  rw [parseRoot.eq_def]; simp

theorem parseRoot_cons_seed (v : String) (rest : List String) (acc : RootAcc) :
    parseRoot ("--seed" :: v :: rest) acc =
      if dashPrefixed v then .error "a value is required for the argument"
      else parseRoot rest { acc with seeds := acc.seeds ++ [v] } := by
  rw [parseRoot.eq_def]; simp

theorem parseRoot_cons_rid (v : String) (rest : List String) (acc : RootAcc) :
    parseRoot ("--rid" :: v :: rest) acc =
      if acc.rid.isSome then .error "the argument cannot be used multiple times"
      else if dashPrefixed v then .error "a value is required for the argument"
      else parseRoot rest { acc with rid := some v } := by
  rw [parseRoot.eq_def]; simp

theorem parseStatus_nil (acc : StatusAcc) : parseStatus [] acc = .ok acc := by
  rw [parseStatus.eq_def]

theorem parseStatus_cons_sortBy (v : String) (rest : List String) (acc : StatusAcc) :
    parseStatus ("--sort-by" :: v :: rest) acc =
      if acc.sortBy.isSome then .error "the argument cannot be used multiple times"
      else if dashPrefixed v then .error "a value is required for the argument"
      else
        match SortBy.fromStr v with
        | .ok sb => parseStatus rest { acc with sortBy := some sb }
        | .error e => .error e := by
  rw [parseStatus.eq_def]; simp

theorem parseStatus_cons_rid (v : String) (rest : List String) (acc : StatusAcc) :
    parseStatus ("--rid" :: v :: rest) acc =
      if acc.rid.isSome then .error "the argument cannot be used multiple times"
      else if dashPrefixed v then .error "a value is required for the argument"
      else parseStatus rest { acc with rid := some v } := by
  rw [parseStatus.eq_def]; simp

theorem parseStatus_cons_debug (rest : List String) (acc : StatusAcc) :
    parseStatus ("--debug" :: rest) acc =
      if acc.debug then .error "the argument cannot be used multiple times"
      else parseStatus rest { acc with debug := true } := by
  rw [parseStatus.eq_def]; simp

theorem parseStatus_cons_verbose (rest : List String) (acc : StatusAcc) :
    parseStatus ("--verbose" :: rest) acc =
      if acc.verbose then .error "the argument cannot be used multiple times"
      else parseStatus rest { acc with verbose := true } := by
  rw [parseStatus.eq_def]; simp

theorem parseStatus_cons_vshort (rest : List String) (acc : StatusAcc) :
    parseStatus ("-v" :: rest) acc =
      if acc.verbose then .error "the argument cannot be used multiple times"
      else parseStatus rest { acc with verbose := true } := by
  rw [parseStatus.eq_def]; simp

theorem parseArgs_status (rest : List String) :
    parseArgs ("status" :: rest) =
      match parseStatus rest StatusAcc.init with
      | .ok acc => .ok acc.finish
      | .error e => .error e := by
  rw [parseArgs.eq_def]; simp

theorem parseArgs_not_status (l : List String) (hne : ∀ rest, l ≠ "status" :: rest) :
    parseArgs l =
      match parseRoot l RootAcc.init with
      | .ok acc => acc.finish
      | .error e => .error e := by
  rw [parseArgs.eq_def]
  split
  · rename_i rest
    exact absurd rfl (hne rest)
  · rfl

theorem parseRoot_seedTokens_append (seeds : List String) :
    ∀ (rest : List String) (acc : RootAcc),
      (∀ s ∈ seeds, dashPrefixed s = false) →
      parseRoot (seedTokens seeds ++ rest) acc
        = parseRoot rest { acc with seeds := acc.seeds ++ seeds } := by
  induction seeds with
  | nil => intro rest acc _; simp [seedTokens]
  | cons s ss ih =>
    intro rest acc hs
    have h1 : dashPrefixed s = false := hs s (by simp)
    simp only [seedTokens, List.cons_append]
    rw [parseRoot_cons_seed, h1]
    simp only [Bool.false_eq_true, if_false]
    rw [ih rest _ (fun x hx => hs x (List.mem_cons_of_mem _ hx))]
    simp [List.append_assoc]

theorem parseRoot_settingsTokens (rOpt tOpt : Option (String × Nat)) (seeds : List String)
    (hr : ∀ p ∈ rOpt, dashPrefixed p.1 = false ∧ parseNat p.1 = .ok p.2)
    (ht : ∀ p ∈ tOpt, dashPrefixed p.1 = false ∧ parseNat p.1 = .ok p.2)
    (hs : ∀ s ∈ seeds, dashPrefixed s = false) :
    parseRoot ((rOpt.elim [] fun p => ["--replicas", p.1])
        ++ (seedTokens seeds ++ (tOpt.elim [] fun p => ["--timeout", p.1]))) RootAcc.init
      = .ok { RootAcc.init with
                replicas := rOpt.map Prod.snd,
                seeds := seeds,
                timeout := tOpt.map Prod.snd } := by
  cases rOpt with
  | none =>
    cases tOpt with
    | none =>
      simp only [Option.elim, List.nil_append]
      rw [parseRoot_seedTokens_append seeds [] _ hs]
      simp [parseRoot_nil, RootAcc.init]
    | some q =>
      obtain ⟨g1, g2⟩ := ht q rfl
      simp only [Option.elim, List.nil_append]
      rw [parseRoot_seedTokens_append seeds _ _ hs]
      rw [parseRoot_cons_timeout, g1, g2]
      simp [parseRoot_nil, RootAcc.init]
  | some p =>
    obtain ⟨h1, h2⟩ := hr p rfl
    cases tOpt with
    | none =>
      simp only [Option.elim, List.cons_append, List.nil_append]
      rw [parseRoot_cons_replicas, h1, h2]
      simp only [RootAcc.init, Option.isSome_none, Bool.false_eq_true, if_false]
      rw [parseRoot_seedTokens_append seeds [] _ hs]
      simp [parseRoot_nil, RootAcc.init]
    | some q =>
      obtain ⟨g1, g2⟩ := ht q rfl
      simp only [Option.elim, List.cons_append, List.nil_append]
      rw [parseRoot_cons_replicas, h1, h2]
      simp only [RootAcc.init, Option.isSome_none, Bool.false_eq_true, if_false]
      rw [parseRoot_seedTokens_append seeds _ _ hs]
      rw [parseRoot_cons_timeout, g1, g2]
      simp [parseRoot_nil, RootAcc.init]

/-- C1: for every flag bundle with `inventory = true`, `SyncMode.new` returns
exactly `Inventory`, regardless of the direction flags and of the optional
settings argument. -/
theorem syncMode_new_inventory_wins (d : Directions) (s : Option SyncSettings) :
    SyncMode.new ⟨d, true⟩ s = SyncMode.Inventory := rfl

/-- C2: with `inventory = false`, the resolved direction is determined from
the `(fetch, announce)` pair exactly as: both false ↦ `Both`, only fetch ↦
`Fetch`, only announce ↦ `Announce`, both true ↦ `Both`. -/
theorem syncMode_new_direction_table (s : Option SyncSettings) :
    SyncMode.new ⟨⟨false, false⟩, false⟩ s
        = SyncMode.Repo (s.getD SyncSettings.default) .Both
      ∧ SyncMode.new ⟨⟨true, false⟩, false⟩ s
        = SyncMode.Repo (s.getD SyncSettings.default) .Fetch
      ∧ SyncMode.new ⟨⟨false, true⟩, false⟩ s
        = SyncMode.Repo (s.getD SyncSettings.default) .Announce
      ∧ SyncMode.new ⟨⟨true, true⟩, false⟩ s
        = SyncMode.Repo (s.getD SyncSettings.default) .Both :=
  ⟨rfl, rfl, rfl, rfl⟩

/-- C8: the resolver is total — for every `SyncModeArgs` and every optional
`SyncSettings` (including `none`), `SyncMode.new` returns a `SyncMode`, which
is either `Inventory` or a fully-built `Repo`; no error value exists. -/
theorem syncMode_new_total (args : SyncModeArgs) (s : Option SyncSettings) :
    SyncMode.new args s = SyncMode.Inventory
      ∨ ∃ st d, SyncMode.new args s = SyncMode.Repo st d := by
  cases h : args.inventory with
  | true => exact Or.inl (by simp [SyncMode.new, h])
  | false =>
    exact Or.inr ⟨s.getD SyncSettings.default, SyncDirection.ofDirections args.directions,
      by simp [SyncMode.new, h]⟩

/-- C9: resolution is lossless — re-deriving a flag bundle from a resolved
`Repo` mode (canonical `Directions` for the direction, the settings
verbatim) and resolving again yields the same settings and direction. -/
theorem syncMode_new_roundTrip (st : SyncSettings) (d : SyncDirection) :
    SyncMode.new ⟨d.canonical, false⟩ (some st) = SyncMode.Repo st d := by
  cases d <;> rfl

/-- C10: parsing a `RepoId` or a `NodeId` never fails — for every string the
result is `Ok` wrapping the string unchanged, and the error type is
uninhabited. -/
theorem identifier_fromStr_total :
    (∀ s, RepoId.fromStr s = .ok ⟨s⟩)
      ∧ (∀ s, NodeId.fromStr s = .ok ⟨s⟩)
      ∧ IsEmpty Infallible :=
  ⟨fun _ => rfl, fun _ => rfl, ⟨fun e => nomatch e⟩⟩

/-- C4: omitting `--replicas`, `--timeout`, or `--seed` yields the defaults
`3`, `9` seconds and `[]`; supplying any subset of them overrides exactly the
supplied fields and leaves every omitted field at its default. -/
theorem settings_defaults_and_overrides (rOpt tOpt : Option (String × Nat))
    (seeds : List String)
    (hr : ∀ p ∈ rOpt, dashPrefixed p.1 = false ∧ parseNat p.1 = .ok p.2)
    (ht : ∀ p ∈ tOpt, dashPrefixed p.1 = false ∧ parseNat p.1 = .ok p.2)
    (hs : ∀ s ∈ seeds, dashPrefixed s = false) :
    parseArgs ((rOpt.elim [] fun p => ["--replicas", p.1])
        ++ (seedTokens seeds ++ (tOpt.elim [] fun p => ["--timeout", p.1])))
      = .ok { rid := none, debug := false, verbose := false
            , sync := SyncModeArgs.default
            , settings := { replicas := (rOpt.map Prod.snd).getD 3
                          , seeds := seeds.map NodeId.mk
                          , timeout := (tOpt.map Prod.snd).getD DEFAULT_SYNC_TIMEOUT }
            , op := none } := by
  have hne : ∀ rest, ((rOpt.elim [] fun p => ["--replicas", p.1])
      ++ (seedTokens seeds ++ (tOpt.elim [] fun p => ["--timeout", p.1])))
        ≠ "status" :: rest := by
    intro rest hEq
    cases rOpt with
    | some p => simp [Option.elim] at hEq
    | none =>
      cases seeds with
      | cons s ss => simp [Option.elim, seedTokens] at hEq
      | nil =>
        cases tOpt with
        | some q => simp [Option.elim, seedTokens] at hEq
        | none => simp [Option.elim, seedTokens] at hEq
  rw [parseArgs_not_status _ hne]
  rw [parseRoot_settingsTokens rOpt tOpt seeds hr ht hs]
  simp [RootAcc.finish, RootAcc.init, SyncModeArgs.default, Directions.default]

/-- Witness for C4: `--replicas 5 --seed a --timeout 2` overrides all three
fields, each parsed value matching its flag. -/
theorem settings_defaults_and_overrides_witness :
    parseArgs ["--replicas", "5", "--seed", "a", "--timeout", "2"]
      = .ok { rid := none, debug := false, verbose := false
            , sync := SyncModeArgs.default
            , settings := { replicas := 5, seeds := [⟨"a"⟩], timeout := 2 }
            , op := none } := by
  have h := settings_defaults_and_overrides (some ("5", 5)) (some ("2", 2)) ["a"]
    (by intro p hp; cases hp; exact ⟨by decide, by decide⟩)
    (by intro p hp; cases hp; exact ⟨by decide, by decide⟩)
    (by intro s hs; simp at hs; subst hs; decide)
  simpa [Option.elim, seedTokens] using h

/-- C5: the `--seed` flag is repeatable and the parsed seeds list preserves
duplicates and command-line order exactly. -/
theorem seed_repeatable_order_preserving (seeds : List String)
    (hs : ∀ s ∈ seeds, dashPrefixed s = false) :
    parseArgs (seedTokens seeds)
      = .ok { rid := none, debug := false, verbose := false
            , sync := SyncModeArgs.default
            , settings := { replicas := 3, seeds := seeds.map NodeId.mk
                          , timeout := DEFAULT_SYNC_TIMEOUT }
            , op := none } := by
  have hne : ∀ rest, seedTokens seeds ≠ "status" :: rest := by
    intro rest hEq
    cases seeds with
    | nil => simp [seedTokens] at hEq
    | cons s ss => simp [seedTokens] at hEq
  rw [parseArgs_not_status _ hne]
  have h := parseRoot_seedTokens_append seeds [] RootAcc.init hs
  rw [List.append_nil] at h
  rw [h, parseRoot_nil]
  simp [RootAcc.finish, RootAcc.init, SyncModeArgs.default, Directions.default]

/-- Witness for C5: `--seed a --seed b --seed a` yields `[a, b, a]`. -/
theorem seed_repeatable_order_preserving_witness :
    parseArgs ["--seed", "a", "--seed", "b", "--seed", "a"]
      = .ok { rid := none, debug := false, verbose := false
            , sync := SyncModeArgs.default
            , settings := { replicas := 3, seeds := [⟨"a"⟩, ⟨"b"⟩, ⟨"a"⟩]
                          , timeout := DEFAULT_SYNC_TIMEOUT }
            , op := none } := by
  have h := seed_repeatable_order_preserving ["a", "b", "a"] (by decide)
  simpa [seedTokens] using h

/-- C6: a `--replicas` value of zero is accepted at parse time, and every
negative `--replicas` value (a minus sign followed by a numeral) is rejected
at parse time. -/
theorem replicas_zero_accepted_negative_rejected :
    parseArgs ["--replicas", "0"]
        = .ok { rid := none, debug := false, verbose := false
              , sync := SyncModeArgs.default
              , settings := { replicas := 0, seeds := []
                            , timeout := DEFAULT_SYNC_TIMEOUT }
              , op := none }
      ∧ ∀ n : Nat, (parseArgs ["--replicas", "-" ++ toString n]).isOk = false := by
  constructor
  · decide
  · intro n
    rw [parseArgs_not_status _ (by intro rest h; simp at h)]
    rw [parseRoot_cons_replicas]
    by_cases hb : dashPrefixed ("-" ++ toString n) = true
    · simp [RootAcc.init, hb, Except.isOk, Except.toBool]
    · simp only [Bool.not_eq_true] at hb
      have hd : ("-" ++ toString n).data = '-' :: (toString n).data := by
        rw [String.data_append]; rfl
      have hdig : ('-' : Char).isDigit = false := by decide
      have hp : parseNat ("-" ++ toString n) = .error "invalid digit found in string" := by
        rw [parseNat.eq_def, hd]
        simp [hdig]
      simp [RootAcc.init, hb, hp, Except.isOk, Except.toBool]

/-- C7: for the `status` subcommand, a `--sort-by` token outside
`{nid, alias, status}` is a parse-time rejection; `nid`, `alias`, `status`
resolve to `Nid`, `Alias`, `Status` respectively; omission defaults to
`Status`. -/
theorem sortBy_rejects_and_resolves :
    (∀ s : String, s ≠ "nid" → s ≠ "alias" → s ≠ "status" →
        (parseArgs ["status", "--sort-by", s]).isOk = false)
      ∧ parseArgs ["status", "--sort-by", "nid"]
          = .ok { rid := none, debug := false, verbose := false
                , sync := SyncModeArgs.default, settings := SyncSettingsArgs.default
                , op := some (.Status .Nid) }
      ∧ parseArgs ["status", "--sort-by", "alias"]
          = .ok { rid := none, debug := false, verbose := false
                , sync := SyncModeArgs.default, settings := SyncSettingsArgs.default
                , op := some (.Status .Alias) }
      ∧ parseArgs ["status", "--sort-by", "status"]
          = .ok { rid := none, debug := false, verbose := false
                , sync := SyncModeArgs.default, settings := SyncSettingsArgs.default
                , op := some (.Status .Status) }
      ∧ parseArgs ["status"]
          = .ok { rid := none, debug := false, verbose := false
                , sync := SyncModeArgs.default, settings := SyncSettingsArgs.default
                , op := some (.Status .Status) } := by
  refine ⟨?_, by decide, by decide, by decide, by decide⟩
  intro s h1 h2 h3
  rw [parseArgs_status, parseStatus_cons_sortBy]
  by_cases hb : dashPrefixed s = true
  · simp [StatusAcc.init, hb, Except.isOk, Except.toBool]
  · simp only [Bool.not_eq_true] at hb
    have hf : SortBy.fromStr s = .error "invalid `--sort-by` field" := by
      rw [SortBy.fromStr]
      simp [h1, h2, h3]
    simp [StatusAcc.init, hb, hf, Except.isOk, Except.toBool]

/-- Witness for C7: `--sort-by bogus` is rejected. -/
theorem sortBy_rejects_and_resolves_witness :
    (parseArgs ["status", "--sort-by", "bogus"]).isOk = false :=
  sortBy_rejects_and_resolves.1 "bogus" (by decide) (by decide) (by decide)

theorem parseRoot_cons_replicas_nil (acc : RootAcc) :
    parseRoot ["--replicas"] acc = .error "a value is required for the argument" := by
  rw [parseRoot.eq_def]; simp

theorem parseRoot_cons_rshort_nil (acc : RootAcc) :
    parseRoot ["-r"] acc = .error "a value is required for the argument" := by
  rw [parseRoot.eq_def]; simp

theorem parseRoot_cons_timeout_nil (acc : RootAcc) :
    parseRoot ["--timeout"] acc = .error "a value is required for the argument" := by
  rw [parseRoot.eq_def]; simp

theorem parseRoot_cons_seed_nil (acc : RootAcc) :
    parseRoot ["--seed"] acc = .error "a value is required for the argument" := by
  rw [parseRoot.eq_def]; simp

theorem parseRoot_cons_rid_nil (acc : RootAcc) :
    parseRoot ["--rid"] acc = .error "a value is required for the argument" := by
  rw [parseRoot.eq_def]; simp

theorem parseStatus_cons_sortBy_nil (acc : StatusAcc) :
    parseStatus ["--sort-by"] acc = .error "a value is required for the argument" := by
  rw [parseStatus.eq_def]; simp

theorem parseStatus_cons_rid_nil (acc : StatusAcc) :
    parseStatus ["--rid"] acc = .error "a value is required for the argument" := by
  rw [parseStatus.eq_def]; simp

theorem not_dash_ne_fetch (v : String) (hv : dashPrefixed v = false) :
    ("--fetch" = v) = False := by
  simp only [eq_iff_iff, iff_false]
  intro hEq
  rw [← hEq] at hv
  exact absurd hv (by decide)

theorem not_dash_ne_announce (v : String) (hv : dashPrefixed v = false) :
    ("--announce" = v) = False := by
  simp only [eq_iff_iff, iff_false]
  intro hEq
  rw [← hEq] at hv
  exact absurd hv (by decide)

theorem not_dash_ne_inventory (v : String) (hv : dashPrefixed v = false) :
    ("--inventory" = v) = False := by
  simp only [eq_iff_iff, iff_false]
  intro hEq
  rw [← hEq] at hv
  exact absurd hv (by decide)

set_option maxHeartbeats 1000000 in
theorem parseRoot_flags_of_ok (acc' : RootAcc) (l : List String) (acc : RootAcc) :
    parseRoot l acc = .ok acc' →
    ((acc.fetch = true → acc'.fetch = true)
      ∧ (acc.announce = true → acc'.announce = true)
      ∧ (acc.inventory = true → acc'.inventory = true)
      ∧ ("--fetch" ∈ l → acc'.fetch = true)
      ∧ ("--announce" ∈ l → acc'.announce = true)
      ∧ ("--inventory" ∈ l → acc'.inventory = true)) := by
  induction l, acc using parseRoot.induct <;>
    intro h <;>
    (try simp_all [parseRoot_nil, parseRoot_cons_fetch, parseRoot_cons_announce,
      parseRoot_cons_inventory, parseRoot_cons_debug, parseRoot_cons_verbose,
      parseRoot_cons_vshort, parseRoot_cons_replicas, parseRoot_cons_rshort,
      parseRoot_cons_timeout, parseRoot_cons_seed, parseRoot_cons_rid,
      parseRoot_cons_replicas_nil, parseRoot_cons_rshort_nil, parseRoot_cons_timeout_nil,
      parseRoot_cons_seed_nil, parseRoot_cons_rid_nil,
      List.mem_cons, not_dash_ne_fetch, not_dash_ne_announce, not_dash_ne_inventory])
  case case10 =>
    rename_i hor hv
    obtain rfl | rfl := hor <;>
      simp_all [parseRoot_cons_verbose, parseRoot_cons_vshort]
  case case11 =>
    rename_i hor hv ih
    obtain rfl | rfl := hor <;>
      simp_all [parseRoot_cons_verbose, parseRoot_cons_vshort, List.mem_cons]
  case case12 =>
    rename_i hor
    obtain rfl | rfl := hor <;>
      simp_all [parseRoot_cons_replicas_nil, parseRoot_cons_rshort_nil]
  case case13 =>
    rename_i hor hsome
    obtain rfl | rfl := hor <;>
      simp_all [parseRoot_cons_replicas, parseRoot_cons_rshort]
  case case14 =>
    rename_i hor hn hd
    obtain rfl | rfl := hor <;>
      simp_all [parseRoot_cons_replicas, parseRoot_cons_rshort]
  case case15 =>
    rename_i hor hn hd hpn ih
    obtain rfl | rfl := hor <;>
      simp_all [parseRoot_cons_replicas, parseRoot_cons_rshort, List.mem_cons,
        not_dash_ne_fetch, not_dash_ne_announce, not_dash_ne_inventory]
  case case16 =>
    rename_i hor hn hd hpe
    obtain rfl | rfl := hor <;>
      simp_all [parseRoot_cons_replicas, parseRoot_cons_rshort]
  case case29 =>
    rw [parseRoot.eq_def] at h
    simp_all

set_option maxHeartbeats 1000000 in
theorem parseStatus_no_root_flags (acc' : StatusAcc) (l : List String) (acc : StatusAcc) :
    parseStatus l acc = .ok acc' →
    ("--fetch" ∉ l ∧ "--announce" ∉ l ∧ "--inventory" ∉ l) := by
  induction l, acc using parseStatus.induct <;>
    intro h <;>
    (try simp_all [parseStatus_nil, parseStatus_cons_sortBy, parseStatus_cons_rid,
      parseStatus_cons_debug, parseStatus_cons_verbose, parseStatus_cons_vshort,
      parseStatus_cons_sortBy_nil, parseStatus_cons_rid_nil,
      List.mem_cons, not_dash_ne_fetch, not_dash_ne_announce, not_dash_ne_inventory])
  case case13 =>
    rename_i hor hv
    obtain rfl | rfl := hor <;>
      simp_all [parseStatus_cons_verbose, parseStatus_cons_vshort]
  case case14 =>
    rename_i hor hv ih
    obtain rfl | rfl := hor <;>
      simp_all [parseStatus_cons_verbose, parseStatus_cons_vshort, List.mem_cons]
  case case15 =>
    rw [parseStatus.eq_def] at h
    simp_all

/-- C3: every invocation that supplies a direction flag (`--fetch` or
`--announce`) together with `--inventory` is rejected at parse time: the
argument surface never produces a parsed `Options` value for it, so no
`SyncMode` can be resolved from such an invocation and no flag is silently
overridden. -/
theorem direction_inventory_conflict_rejected (ts : List String)
    (hinv : "--inventory" ∈ ts)
    (hdir : "--fetch" ∈ ts ∨ "--announce" ∈ ts) :
    (parseArgs ts).isOk = false := by
  rw [parseArgs.eq_def]
  split
  · rename_i rest
    cases hps : parseStatus rest StatusAcc.init with
    | ok acc =>
      have hno := parseStatus_no_root_flags acc rest StatusAcc.init hps
      have hmem : "--inventory" ∈ rest := by
        rcases List.mem_cons.mp hinv with h1 | h1
        · exact absurd h1 (by decide)
        · exact h1
      exact absurd hmem hno.2.2
    | error e => simp [hps, Except.isOk, Except.toBool]
  · cases hpr : parseRoot ts RootAcc.init with
    | ok acc =>
      have hfl := parseRoot_flags_of_ok acc ts RootAcc.init hpr
      have hi : acc.inventory = true := hfl.2.2.2.2.2 hinv
      have hcond : ((acc.fetch || acc.announce) && acc.inventory) = true := by
        rcases hdir with h1 | h1
        · simp [hi, hfl.2.2.2.1 h1]
        · simp [hi, hfl.2.2.2.2.1 h1]
      simp [hpr, RootAcc.finish, hcond, Except.isOk, Except.toBool]
    | error e => simp [hpr, Except.isOk, Except.toBool]

theorem direction_inventory_conflict_rejected_witness :
    (parseArgs ["--fetch", "--inventory"]).isOk = false :=
  direction_inventory_conflict_rejected ["--fetch", "--inventory"]
    (by decide) (Or.inl (by decide))
